import Mathlib

/-!
Verification development for the mcptrust Python adapter packages
(mcptrust_core, autogen_mcptrust, langchain_mcptrust).

The repository is a thin wrapper around an external command-line
binary: it resolves the path to the binary, builds argument vectors,
spawns child processes and maps child exit codes and captured streams
onto typed results or exceptions.  We embed that logic shallowly:

 - the operating-system side of a child-process invocation is a
   function from the full argument vector to a ProcResult (exit code,
   stdout, stderr), passed in as a parameter called world;
 - each operation additionally returns the ordered list of full
   argument vectors it spawned (the trace), so statements such as
   "two sub-invocations are spawned" or "no subprocess is spawned
   before the usage error" are directly expressible;
 - raising an exception is modelled by returning Except.error;
 - Python truthiness of optional strings and optional lists is
   modelled explicitly (None and the empty string / empty list are
   falsy).
-/

/-- Python truthiness of an optional string: None and the empty string
are falsy, every other string is truthy. -/
def truthyOptStr : Option String → Bool
  | none => false
  | some s => !(s == "")

/-- Python truthiness of an optional list: None and the empty list are
falsy, every non-empty list is truthy. -/
def truthyOptList : Option (List String) → Bool
  | none => false
  | some l => !l.isEmpty

/-- Structured logging configuration, from mcptrust_core.types.LogConfig.
The format, level and output fields are carried as plain strings. -/
structure LogConfig where
  format : String
  level : String
  output : String
deriving DecidableEq, Repr

/-- Receipt artifact configuration, from mcptrust_core.types.ReceiptConfig. -/
structure ReceiptConfig where
  path : String
  mode : String
deriving DecidableEq, Repr

/-- Result of the lock command, from mcptrust_core.types.LockResult. -/
structure LockResult where
  lockfile_path : String
  stdout : String
  stderr : String
deriving DecidableEq, Repr

/-- Result of the check command, from mcptrust_core.types.CheckResult. -/
structure CheckResult where
  passed : Bool
  diff_stdout : String
  diff_stderr : String
  policy_stdout : String
  policy_stderr : String
deriving DecidableEq, Repr

/-- Result of the run command, from mcptrust_core.types.RunResult. -/
structure RunResult where
  exit_code : Int
  stdout : String
  stderr : String
deriving DecidableEq, Repr

/-- Outcome of one child process: exit code and captured streams.
This models what subprocess.run with capture_output returns. -/
structure ProcResult where
  returncode : Int
  stdout : String
  stderr : String
deriving DecidableEq, Repr

/-- The payload of mcptrust_core.errors.MCPTrustCommandError: message,
exit code, full argument vector and the captured streams. -/
structure CommandError where
  message : String
  exit_code : Int
  argv : List String
  stdout : String
  stderr : String
deriving DecidableEq, Repr

/-- Errors an operation can raise: a Python ValueError with its message
(usage errors and shlex tokenization errors) or an
MCPTrustCommandError. -/
inductive MCPError where
  | valueError (message : String)
  | commandError (e : CommandError)
deriving DecidableEq, Repr

/-- Tokenizer mode for the model of shlex.split: outside any quote,
inside single quotes, inside double quotes, right after a backslash
outside quotes, and right after a backslash inside double quotes. -/
inductive SMode where
  | norm
  | squote
  | dquote
  | escNorm
  | escDquote
deriving DecidableEq, Repr

/-- The whitespace characters of the shlex lexer. -/
def shlexWhitespace (c : Char) : Bool :=
  c = ' ' || c = '\t' || c = '\r' || c = '\n'

/-- One-character-at-a-time model of CPython shlex.split in POSIX
mode with whitespace splitting: mode is the current lexer state,
inTok records whether a token is open (so that a pair of quotes
yields an empty token), cur is the current token in reverse, acc the
finished tokens.  Reaching the end of input inside a quote or right
after a backslash is a tokenization error (none), as in CPython. -/
def shlexRun : List Char → SMode → Bool → List Char → List String → Option (List String)
  | [], .norm, inTok, cur, acc =>
      some (if inTok then acc ++ [String.mk cur.reverse] else acc)
  | [], _, _, _, _ => none
  | c :: rest, .norm, inTok, cur, acc =>
      if shlexWhitespace c then
        if inTok then shlexRun rest .norm false [] (acc ++ [String.mk cur.reverse])
        else shlexRun rest .norm false [] acc
      else if c = '\'' then shlexRun rest .squote true cur acc
      else if c = '"' then shlexRun rest .dquote true cur acc
      else if c = '\\' then shlexRun rest .escNorm true cur acc
      else shlexRun rest .norm true (c :: cur) acc
  | c :: rest, .squote, _, cur, acc =>
      if c = '\'' then shlexRun rest .norm true cur acc
      else shlexRun rest .squote true (c :: cur) acc
  | c :: rest, .dquote, _, cur, acc =>
      if c = '"' then shlexRun rest .norm true cur acc
      else if c = '\\' then shlexRun rest .escDquote true cur acc
      else shlexRun rest .dquote true (c :: cur) acc
  | c :: rest, .escNorm, _, cur, acc =>
      shlexRun rest .norm true (c :: cur) acc
  | c :: rest, .escDquote, _, cur, acc =>
      if c = '"' || c = '\\' then shlexRun rest .dquote true (c :: cur) acc
      else shlexRun rest .dquote true (c :: '\\' :: cur) acc

/-- Model of shlex.split: split a shell-syntax string into tokens
honoring quoting; none models the ValueError CPython raises on an
unclosed quote or a dangling escape character. -/
def shlex.split (s : String) : Option (List String) :=
  shlexRun s.data .norm false [] []

example : shlex.split "npx -y @scope/server /path" = some ["npx", "-y", "@scope/server", "/path"] := by decide
example : shlex.split "a \"b c\" d" = some ["a", "b c", "d"] := by decide
example : shlex.split "\"unclosed" = none := by decide

/-- The default message of mcptrust_core.errors.MCPTrustNotInstalled:
an actionable installation hint. -/
def MCPTrustNotInstalled.defaultMessage : String :=
  "mcptrust binary not found. Install with: go install github.com/mcptrust/mcptrust/cmd/mcptrust@latest or set MCPTRUST_BIN environment variable."

/-- Binary resolution performed by MCPTrust.__init__ in cli.py: the
explicit bin_path argument, then the MCPTRUST_BIN environment variable
(env_bin, passed here as the value os.environ.get returns), then the
search-path lookup (which_bin, the value shutil.which returns).  Each
source is consulted under Python truthiness, and failure of all three
raises MCPTrustNotInstalled. -/
def MCPTrust.init (bin_path : Option String) (env_bin : Option String)
    (which_bin : Option String) : Except String String :=
  if truthyOptStr bin_path then .ok (bin_path.getD "")
  else if truthyOptStr env_bin then .ok (env_bin.getD "")
  else if truthyOptStr which_bin then .ok (which_bin.getD "")
  else .error MCPTrustNotInstalled.defaultMessage

/-- The error value MCPTrust._run constructs for a non-zero child
exit: message with the exit code, the full argument vector, and the
captured streams. -/
def mkCommandError (full_argv : List String) (r : ProcResult) : CommandError :=
  { message := "mcptrust exited with code " ++ toString r.returncode
  , exit_code := r.returncode
  , argv := full_argv
  , stdout := r.stdout
  , stderr := r.stderr }

/-- Model of MCPTrust._run in cli.py: prepend the resolved binary
path, consult the world for the child outcome, and raise
MCPTrustCommandError on a non-zero exit code. -/
def MCPTrust._run (binPath : String) (world : List String → ProcResult)
    (argv : List String) : Except CommandError ProcResult :=
  let full_argv := binPath :: argv
  let result := world full_argv
  if result.returncode ≠ 0 then .error (mkCommandError full_argv result)
  else .ok result

/-- Model of MCPTrust._build_common_flags in cli.py: a present log
config contributes the three flag/value pairs format, level, output in
that order; a present receipt config then contributes path and mode;
an absent config contributes nothing. -/
def MCPTrust._build_common_flags (log : Option LogConfig)
    (receipt : Option ReceiptConfig) : List String :=
  (match log with
   | some l => ["--log-format", l.format, "--log-level", l.level, "--log-output", l.output]
   | none => []) ++
  (match receipt with
   | some r => ["--receipt", r.path, "--receipt-mode", r.mode]
   | none => [])

/-- Model of MCPTrust._parse_server_command in cli.py: both forms
truthy is a ValueError, a truthy token list is returned verbatim, a
truthy string is tokenized with shlex.split (whose own ValueError on a
malformed string propagates), and neither form truthy is a
ValueError. -/
def MCPTrust._parse_server_command (server_command : Option String)
    (server_argv : Option (List String)) : Except String (List String) :=
  if truthyOptStr server_command && truthyOptList server_argv then
    .error "Specify server_command OR server_argv, not both"
  else if truthyOptList server_argv then
    .ok (server_argv.getD [])
  else if truthyOptStr server_command then
    match shlex.split (server_command.getD "") with
    | some tokens => .ok tokens
    | none => .error "No closing quotation"
  else
    .error "Must specify server_command or server_argv"

/-- Model of MCPTrust.lock in cli.py.  The first component is the
trace: the full argument vectors spawned, in order; a usage error
leaves it empty.  A non-zero child exit always raises; exit 0 returns
a LockResult whose lockfile path is the caller-supplied one. -/
def MCPTrust.lock (binPath : String) (world : List String → ProcResult)
    (server_command : Option String) (server_argv : Option (List String))
    (lockfile : String) (pin : Bool) (verify_provenance : Bool)
    (log : Option LogConfig) (receipt : Option ReceiptConfig) :
    List (List String) × Except MCPError LockResult :=
  match MCPTrust._parse_server_command server_command server_argv with
  | .error m => ([], .error (.valueError m))
  | .ok cmd_tokens =>
    let argv := ["lock"] ++ MCPTrust._build_common_flags log receipt
      ++ ["--output", lockfile]
      ++ (if pin then ["--pin"] else [])
      ++ (if verify_provenance then ["--verify-provenance"] else [])
      ++ ["--"] ++ cmd_tokens
    match MCPTrust._run binPath world argv with
    | .error e => ([binPath :: argv], .error (.commandError e))
    | .ok result =>
      ([binPath :: argv],
       .ok { lockfile_path := lockfile, stdout := result.stdout, stderr := result.stderr })

/-- Model of MCPTrust.check in cli.py: run the diff step, capture its
outcome locally, then always run the policy step and capture its
outcome; the aggregate passed is the conjunction.  With raise_on_fail
and a failed aggregate, the first captured error (diff before policy)
is raised; otherwise the CheckResult carries both steps' streams
independently. -/
def MCPTrust.check (binPath : String) (world : List String → ProcResult)
    (server_command : Option String) (server_argv : Option (List String))
    (lockfile : String) (preset : String)
    (log : Option LogConfig) (receipt : Option ReceiptConfig)
    (raise_on_fail : Bool) :
    List (List String) × Except MCPError CheckResult :=
  match MCPTrust._parse_server_command server_command server_argv with
  | .error m => ([], .error (.valueError m))
  | .ok cmd_tokens =>
    let common_flags := MCPTrust._build_common_flags log receipt
    let diff_argv := ["diff", "--lockfile", lockfile] ++ common_flags ++ ["--"] ++ cmd_tokens
    let diffRes := MCPTrust._run binPath world diff_argv
    let diff_passed := match diffRes with | .ok _ => true | .error _ => false
    let diff_stdout := match diffRes with | .ok r => r.stdout | .error e => e.stdout
    let diff_stderr := match diffRes with | .ok r => r.stderr | .error e => e.stderr
    let diff_error : Option CommandError :=
      match diffRes with | .ok _ => none | .error e => some e
    let policy_argv := ["policy", "check", "--preset", preset, "--lockfile", lockfile]
      ++ common_flags ++ ["--"] ++ cmd_tokens
    let policyRes := MCPTrust._run binPath world policy_argv
    let policy_passed := match policyRes with | .ok _ => true | .error _ => false
    let policy_stdout := match policyRes with | .ok r => r.stdout | .error e => e.stdout
    let policy_stderr := match policyRes with | .ok r => r.stderr | .error e => e.stderr
    let policy_error : Option CommandError :=
      match policyRes with | .ok _ => none | .error e => some e
    let passed := diff_passed && policy_passed
    let trace := [binPath :: diff_argv, binPath :: policy_argv]
    let result : CheckResult :=
      { passed := passed
      , diff_stdout := diff_stdout, diff_stderr := diff_stderr
      , policy_stdout := policy_stdout, policy_stderr := policy_stderr }
    if raise_on_fail && !passed then
      match diff_error with
      | some e => (trace, .error (.commandError e))
      | none =>
        match policy_error with
        | some e => (trace, .error (.commandError e))
        | none => (trace, .ok result)
    else
      (trace, .ok result)

/-- Model of MCPTrust.run in cli.py: build the run argument vector,
spawn once; on exit 0 return a RunResult with exit code 0; on a
non-zero exit re-raise when raise_on_fail, otherwise return a
RunResult carrying the real exit code and the captured streams. -/
def MCPTrust.run (binPath : String) (world : List String → ProcResult)
    (lockfile : String) (require_provenance : Bool) (dry_run : Bool)
    (bin_name : Option String)
    (log : Option LogConfig) (receipt : Option ReceiptConfig)
    (raise_on_fail : Bool) :
    List (List String) × Except MCPError RunResult :=
  let argv := ["run", "--lock", lockfile] ++ MCPTrust._build_common_flags log receipt
    ++ (if require_provenance then ["--require-provenance"] else ["--require-provenance=false"])
    ++ (if dry_run then ["--dry-run"] else [])
    ++ (if truthyOptStr bin_name then ["--bin", bin_name.getD ""] else [])
  match MCPTrust._run binPath world argv with
  | .ok result =>
    ([binPath :: argv], .ok { exit_code := 0, stdout := result.stdout, stderr := result.stderr })
  | .error e =>
    if raise_on_fail then ([binPath :: argv], .error (.commandError e))
    else ([binPath :: argv], .ok { exit_code := e.exit_code, stdout := e.stdout, stderr := e.stderr })

/-- Escaping of one character by Python repr of a string, for the
chosen quote character q: the backslash and the quote character are
backslash-escaped, newline, carriage return and tab become their
two-character escapes, every other (printable) character stands for
itself. -/
def pyCharEscape (q : Char) (c : Char) : List Char :=
  if c = '\\' then ['\\', '\\']
  else if c = q then ['\\', q]
  else if c = '\n' then ['\\', 'n']
  else if c = '\r' then ['\\', 'r']
  else if c = '\t' then ['\\', 't']
  else [c]

/-- Model of Python repr of a (printable) string, as used by the !r
conversion in f-strings: single quotes by default, double quotes when
the string contains a single quote but no double quote, with the
characters escaped for the chosen quote. -/
def pyRepr (s : String) : String :=
  let q : Char := if s.data.contains '\'' && !(s.data.contains '"') then '"' else '\''
  String.mk (q :: (s.data.map (pyCharEscape q)).flatten ++ [q])

/-- Model of MCPTrustCommandError.__str__ in errors.py: the base
message, then the exit code, then — only when stderr is non-empty — a
repr of stderr truncated to its first 200 characters followed by an
ellipsis when longer than 200 characters; the parts are joined with
a vertical-bar separator. -/
def MCPTrustCommandError.str (e : CommandError) : String :=
  let base := e.message
  let parts := [base, "exit_code=" ++ toString e.exit_code]
  let parts := if e.stderr ≠ "" then
      parts ++ ["stderr=" ++
        pyRepr (if e.stderr.length > 200 then e.stderr.take 200 ++ "..." else e.stderr)]
    else parts
  String.intercalate " | " parts

/-- Configuration stored by autogen_mcptrust.guard.MCPTrustGuard at
construction: exactly one of the server-command forms (the token
sequence preferred when both were supplied), the lockfile, the preset
and the invocation configuration. -/
structure GuardConfig where
  server_command : Option String
  server_argv : Option (List String)
  lockfile : String
  preset : String
  log : Option LogConfig
  receipt : Option ReceiptConfig
deriving DecidableEq, Repr

/-- Model of MCPTrustGuard.__init__ in autogen_mcptrust/guard.py:
neither form truthy raises ValueError; otherwise a truthy server_argv
is preferred (server_command dropped to None), else server_command is
kept with server_argv None. -/
def MCPTrustGuard.init (server_command : Option String)
    (server_argv : Option (List String)) (lockfile : String) (preset : String)
    (log : Option LogConfig) (receipt : Option ReceiptConfig) :
    Except String GuardConfig :=
  if !truthyOptStr server_command && !truthyOptList server_argv then
    .error "Must specify server_command or server_argv"
  else if truthyOptList server_argv then
    .ok { server_command := none, server_argv := server_argv
        , lockfile := lockfile, preset := preset, log := log, receipt := receipt }
  else
    .ok { server_command := server_command, server_argv := none
        , lockfile := lockfile, preset := preset, log := log, receipt := receipt }

/-- Model of MCPTrustGuard.lock: delegate to MCPTrust.lock with the
stored server-command forms and configuration. -/
def MCPTrustGuard.lock (g : GuardConfig) (binPath : String)
    (world : List String → ProcResult) (pin : Bool) (verify_provenance : Bool) :
    List (List String) × Except MCPError LockResult :=
  MCPTrust.lock binPath world g.server_command g.server_argv g.lockfile
    pin verify_provenance g.log g.receipt

/-- Model of MCPTrustGuard.check: delegate to MCPTrust.check with the
stored server-command forms and configuration. -/
def MCPTrustGuard.check (g : GuardConfig) (binPath : String)
    (world : List String → ProcResult) (raise_on_fail : Bool) :
    List (List String) × Except MCPError CheckResult :=
  MCPTrust.check binPath world g.server_command g.server_argv g.lockfile
    g.preset g.log g.receipt raise_on_fail

/-- Configuration stored by langchain_mcptrust.server.TrustedMCPServer
at construction: both server-command forms are stored exactly as
supplied, with no preference applied. -/
structure TrustedMCPServer where
  server_command : Option String
  server_argv : Option (List String)
  lockfile : String
  preset : String
deriving DecidableEq, Repr

/-- Model of TrustedMCPServer.__init__ in langchain_mcptrust/server.py:
every argument is stored unchanged. -/
def TrustedMCPServer.init (server_command : Option String)
    (server_argv : Option (List String)) (lockfile : String) (preset : String) :
    TrustedMCPServer :=
  { server_command := server_command, server_argv := server_argv
  , lockfile := lockfile, preset := preset }

/-- Model of TrustedMCPServer.lock: delegate to MCPTrust.lock passing
both stored server-command forms through unchanged. -/
def TrustedMCPServer.lock (s : TrustedMCPServer) (binPath : String)
    (world : List String → ProcResult) (pin : Bool) (verify_provenance : Bool)
    (log : Option LogConfig) (receipt : Option ReceiptConfig) :
    List (List String) × Except MCPError LockResult :=
  MCPTrust.lock binPath world s.server_command s.server_argv s.lockfile
    pin verify_provenance log receipt

/-- Model of TrustedMCPServer.check: delegate to MCPTrust.check
passing both stored server-command forms through unchanged. -/
def TrustedMCPServer.check (s : TrustedMCPServer) (binPath : String)
    (world : List String → ProcResult)
    (log : Option LogConfig) (receipt : Option ReceiptConfig)
    (raise_on_fail : Bool) :
    List (List String) × Except MCPError CheckResult :=
  MCPTrust.check binPath world s.server_command s.server_argv s.lockfile
    s.preset log receipt raise_on_fail

/-- The full argument vector of the lock invocation, as MCPTrust.lock
builds it from the parsed server-command tokens. -/
def lockInvocation (binPath : String) (lockfile : String)
    (pin : Bool) (verify_provenance : Bool)
    (log : Option LogConfig) (receipt : Option ReceiptConfig)
    (cmd_tokens : List String) : List String :=
  binPath :: (["lock"] ++ MCPTrust._build_common_flags log receipt
    ++ ["--output", lockfile]
    ++ (if pin then ["--pin"] else [])
    ++ (if verify_provenance then ["--verify-provenance"] else [])
    ++ ["--"] ++ cmd_tokens)

/-- The full argument vector of the diff step of MCPTrust.check. -/
def diffInvocation (binPath : String) (lockfile : String)
    (log : Option LogConfig) (receipt : Option ReceiptConfig)
    (cmd_tokens : List String) : List String :=
  binPath :: (["diff", "--lockfile", lockfile]
    ++ MCPTrust._build_common_flags log receipt ++ ["--"] ++ cmd_tokens)

/-- The full argument vector of the policy step of MCPTrust.check. -/
def policyInvocation (binPath : String) (lockfile : String) (preset : String)
    (log : Option LogConfig) (receipt : Option ReceiptConfig)
    (cmd_tokens : List String) : List String :=
  binPath :: (["policy", "check", "--preset", preset, "--lockfile", lockfile]
    ++ MCPTrust._build_common_flags log receipt ++ ["--"] ++ cmd_tokens)

/-- The full argument vector of the run invocation, as MCPTrust.run
builds it. -/
def runInvocation (binPath : String) (lockfile : String)
    (require_provenance : Bool) (dry_run : Bool) (bin_name : Option String)
    (log : Option LogConfig) (receipt : Option ReceiptConfig) : List String :=
  binPath :: (["run", "--lock", lockfile] ++ MCPTrust._build_common_flags log receipt
    ++ (if require_provenance then ["--require-provenance"] else ["--require-provenance=false"])
    ++ (if dry_run then ["--dry-run"] else [])
    ++ (if truthyOptStr bin_name then ["--bin", bin_name.getD ""] else []))

/-- Inside double quotes, every character other than the double quote
and the backslash is taken literally, so a clean quoted run is
appended to the current token unchanged. -/
theorem shlexRun_dquote_clean (cs : List Char) (rest : List Char) (inTok : Bool)
    (cur : List Char) (acc : List String)
    (h : ∀ c ∈ cs, c ≠ '"' ∧ c ≠ '\\') :
    shlexRun (cs ++ '"' :: rest) .dquote inTok cur acc
      = shlexRun rest .norm true (cs.reverse ++ cur) acc := by
  induction cs generalizing cur inTok with
  | nil => simp [shlexRun]
  | cons c cs ih =>
      obtain ⟨h1, h2⟩ := h c (List.mem_cons_self c cs)
      rw [List.cons_append]
      rw [show shlexRun (c :: (cs ++ '"' :: rest)) .dquote inTok cur acc
            = if c = '"' then shlexRun (cs ++ '"' :: rest) .norm true cur acc
              else if c = '\\' then shlexRun (cs ++ '"' :: rest) .escDquote true cur acc
              else shlexRun (cs ++ '"' :: rest) .dquote true (c :: cur) acc from rfl]
      rw [if_neg h1, if_neg h2]
      rw [ih true (c :: cur) (fun d hd => h d (List.mem_cons_of_mem c hd))]
      simp

/-- A double-quoted string of clean characters tokenizes to that one
token, even when it contains spaces. -/
theorem shlex_split_quoted (cs : List Char)
    (h : ∀ c ∈ cs, c ≠ '"' ∧ c ≠ '\\') :
    shlex.split (String.mk ('"' :: cs ++ ['"'])) = some [String.mk cs] := by
  show shlexRun ('"' :: (cs ++ ['"'])) .norm false [] [] = some [String.mk cs]
  rw [show shlexRun ('"' :: (cs ++ ['"'])) .norm false [] []
        = shlexRun (cs ++ '"' :: []) .dquote true [] [] by
      simp [shlexRun, shlexWhitespace]]
  rw [shlexRun_dquote_clean cs [] true [] [] h]
  simp [shlexRun]

/-- C6: a present LogConfig contributes exactly the six elements
log-format, format, log-level, level, log-output, output in that
order, a present ReceiptConfig contributes exactly receipt, path,
receipt-mode, mode immediately after them, and an absent config
contributes no elements: with no LogConfig none of the three log
flags appears among the built flags (given that the receipt fields do
not themselves spell one of those flag literals). -/
theorem build_common_flags_spec :
    (∀ (l : LogConfig) (r : Option ReceiptConfig),
       MCPTrust._build_common_flags (some l) r
         = ["--log-format", l.format, "--log-level", l.level, "--log-output", l.output]
           ++ MCPTrust._build_common_flags none r) ∧
    (∀ (l : LogConfig) (r : ReceiptConfig),
       MCPTrust._build_common_flags (some l) (some r)
         = ["--log-format", l.format, "--log-level", l.level, "--log-output", l.output,
            "--receipt", r.path, "--receipt-mode", r.mode]) ∧
    (∀ r : ReceiptConfig,
       MCPTrust._build_common_flags none (some r)
         = ["--receipt", r.path, "--receipt-mode", r.mode]) ∧
    MCPTrust._build_common_flags none none = [] ∧
    (∀ r : Option ReceiptConfig,
       (∀ rc : ReceiptConfig, r = some rc →
          rc.path ∉ (["--log-format", "--log-level", "--log-output"] : List String) ∧
          rc.mode ∉ (["--log-format", "--log-level", "--log-output"] : List String)) →
       ∀ f ∈ (["--log-format", "--log-level", "--log-output"] : List String),
         f ∉ MCPTrust._build_common_flags none r) := by
  refine ⟨?_, ?_, ?_, ?_, ?_⟩
  · intro l r
    cases r <;> simp [MCPTrust._build_common_flags]
  · intro l r
    simp [MCPTrust._build_common_flags]
  · intro r
    simp [MCPTrust._build_common_flags]
  · simp [MCPTrust._build_common_flags]
  · intro r hr f hf
    cases r with
    | none => simp [MCPTrust._build_common_flags]
    | some rc =>
      obtain ⟨hp, hm⟩ := hr rc rfl
      simp only [MCPTrust._build_common_flags]
      fin_cases hf <;>
        simp_all [List.mem_cons, eq_comm]

/-- Witness for C6 at a concrete configuration. -/
theorem build_common_flags_spec_witness :
    MCPTrust._build_common_flags (some ⟨"jsonl", "debug", "/var/log/x"⟩) none
      = ["--log-format", "jsonl", "--log-level", "debug", "--log-output", "/var/log/x"] ∧
    "--log-format" ∉
      MCPTrust._build_common_flags none (some ⟨"/tmp/receipt.json", "overwrite"⟩) := by
  constructor
  · have h := build_common_flags_spec.1 ⟨"jsonl", "debug", "/var/log/x"⟩ none
    rw [h]
    rfl
  · exact build_common_flags_spec.2.2.2.2 (some ⟨"/tmp/receipt.json", "overwrite"⟩)
      (by intro rc h; cases h; constructor <;> decide)
      "--log-format" (by decide)

/-- C7: binary discovery precedence is explicit path over environment
variable over search path; with an explicit path the other two sources
never influence the result, and when no source resolves, construction
fails with the installation-hint message. -/
theorem binary_discovery_precedence :
    (∀ (p : String) (env_bin which_bin env_bin2 which_bin2 : Option String), p ≠ "" →
        MCPTrust.init (some p) env_bin which_bin = .ok p ∧
        MCPTrust.init (some p) env_bin which_bin
          = MCPTrust.init (some p) env_bin2 which_bin2) ∧
    (∀ (e : String) (which_bin : Option String), e ≠ "" →
        MCPTrust.init none (some e) which_bin = .ok e) ∧
    (∀ w : String, w ≠ "" → MCPTrust.init none none (some w) = .ok w) ∧
    MCPTrust.init none none none = .error MCPTrustNotInstalled.defaultMessage := by
  refine ⟨?_, ?_, ?_, ?_⟩
  · intro p env_bin which_bin env_bin2 which_bin2 hp
    constructor <;> simp [MCPTrust.init, truthyOptStr, hp]
  · intro e which_bin he
    simp [MCPTrust.init, truthyOptStr, he]
  · intro w hw
    simp [MCPTrust.init, truthyOptStr, hw]
  · simp [MCPTrust.init, truthyOptStr]

/-- Witness for C7 at concrete paths. -/
theorem binary_discovery_precedence_witness :
    MCPTrust.init (some "/mock/mcptrust") (some "/env/mcptrust") (some "/path/mcptrust")
      = .ok "/mock/mcptrust" ∧
    MCPTrust.init none (some "/env/mcptrust") (some "/path/mcptrust")
      = .ok "/env/mcptrust" ∧
    MCPTrust.init none none (some "/path/mcptrust") = .ok "/path/mcptrust" :=
  ⟨(binary_discovery_precedence.1 "/mock/mcptrust" (some "/env/mcptrust")
      (some "/path/mcptrust") none none (by decide)).1,
   binary_discovery_precedence.2.1 "/env/mcptrust" (some "/path/mcptrust") (by decide),
   binary_discovery_precedence.2.2.1 "/path/mcptrust" (by decide)⟩

/-- C5: supplying both a truthy server-command string and a truthy
token sequence makes lock and check fail with the usage error and
spawn nothing; supplying neither likewise; a truthy token sequence is
passed through verbatim (so embedded whitespace in a token is
preserved); a string is tokenized with shlex.split, so a double-quoted
substring of ordinary characters — spaces included — stays one
token. -/
theorem server_command_forms_spec :
    (∀ (binPath : String) (world : List String → ProcResult)
       (sc : Option String) (sa : Option (List String))
       (lockfile preset : String) (pin vp : Bool)
       (log : Option LogConfig) (receipt : Option ReceiptConfig) (rof : Bool),
       truthyOptStr sc = true → truthyOptList sa = true →
       MCPTrust.lock binPath world sc sa lockfile pin vp log receipt
         = ([], .error (.valueError "Specify server_command OR server_argv, not both")) ∧
       MCPTrust.check binPath world sc sa lockfile preset log receipt rof
         = ([], .error (.valueError "Specify server_command OR server_argv, not both"))) ∧
    (∀ (binPath : String) (world : List String → ProcResult)
       (sc : Option String) (sa : Option (List String))
       (lockfile preset : String) (pin vp : Bool)
       (log : Option LogConfig) (receipt : Option ReceiptConfig) (rof : Bool),
       truthyOptStr sc = false → truthyOptList sa = false →
       MCPTrust.lock binPath world sc sa lockfile pin vp log receipt
         = ([], .error (.valueError "Must specify server_command or server_argv")) ∧
       MCPTrust.check binPath world sc sa lockfile preset log receipt rof
         = ([], .error (.valueError "Must specify server_command or server_argv"))) ∧
    (∀ a : List String, a ≠ [] →
       MCPTrust._parse_server_command none (some a) = .ok a) ∧
    (∀ cs : List Char, (∀ c ∈ cs, c ≠ '"' ∧ c ≠ '\\') →
       MCPTrust._parse_server_command (some (String.mk ('"' :: cs ++ ['"']))) none
         = .ok [String.mk cs]) := by
  refine ⟨?_, ?_, ?_, ?_⟩
  · intro binPath world sc sa lockfile preset pin vp log receipt rof hsc hsa
    constructor <;>
      simp [MCPTrust.lock, MCPTrust.check, MCPTrust._parse_server_command, hsc, hsa]
  · intro binPath world sc sa lockfile preset pin vp log receipt rof hsc hsa
    constructor <;>
      simp [MCPTrust.lock, MCPTrust.check, MCPTrust._parse_server_command, hsc, hsa]
  · intro a ha
    simp [MCPTrust._parse_server_command, truthyOptList, truthyOptStr, ha]
  · intro cs h
    have hne : truthyOptStr (some (String.mk ('"' :: cs ++ ['"']))) = true := by
      simp only [truthyOptStr, Bool.not_eq_eq_eq_not, Bool.not_true, beq_eq_false_iff_ne]
      intro hcontra
      have hdata : ('"' :: cs ++ ['"'] : List Char) = [] := congrArg String.data hcontra
      simp at hdata
    have hsplit := shlex_split_quoted cs h
    simp only [List.cons_append] at hne hsplit
    simp [MCPTrust._parse_server_command, hne, truthyOptList, hsplit]

/-- Witness for C5 at concrete inputs. -/
theorem server_command_forms_spec_witness :
    MCPTrust.lock "/mock/mcptrust" (fun _ => ⟨0, "", ""⟩) (some "cmd") (some ["cmd"])
        "mcp-lock.json" true false none none
      = ([], .error (.valueError "Specify server_command OR server_argv, not both")) ∧
    MCPTrust._parse_server_command none (some ["npx", "-y", "/path with spaces"])
      = .ok ["npx", "-y", "/path with spaces"] ∧
    MCPTrust._parse_server_command (some "\"b c\"") none = .ok ["b c"] :=
  ⟨(server_command_forms_spec.1 "/mock/mcptrust" (fun _ => ⟨0, "", ""⟩)
      (some "cmd") (some ["cmd"]) "mcp-lock.json" "baseline" true false none none false
      (by decide) (by decide)).1,
   server_command_forms_spec.2.2.1 ["npx", "-y", "/path with spaces"] (by decide),
   server_command_forms_spec.2.2.2 ['b', ' ', 'c'] (by decide)⟩

/-- C10: presence of each server-command form is decided by Python
truthiness: an empty token list together with a missing or empty
string yields the must-specify usage error and no spawned subprocess,
while a non-empty token list together with an empty string does not
trigger the not-both error — the token list is used. -/
theorem parse_truthiness_empty_forms :
    MCPTrust._parse_server_command none (some [])
      = .error "Must specify server_command or server_argv" ∧
    MCPTrust._parse_server_command (some "") (some [])
      = .error "Must specify server_command or server_argv" ∧
    (∀ (binPath : String) (world : List String → ProcResult)
       (lockfile : String) (pin vp : Bool)
       (log : Option LogConfig) (receipt : Option ReceiptConfig),
       MCPTrust.lock binPath world none (some []) lockfile pin vp log receipt
         = ([], .error (.valueError "Must specify server_command or server_argv"))) ∧
    (∀ (binPath : String) (world : List String → ProcResult)
       (lockfile preset : String)
       (log : Option LogConfig) (receipt : Option ReceiptConfig) (rof : Bool),
       MCPTrust.check binPath world (some "") (some []) lockfile preset log receipt rof
         = ([], .error (.valueError "Must specify server_command or server_argv"))) ∧
    (∀ ts : List String, ts ≠ [] →
       MCPTrust._parse_server_command (some "") (some ts) = .ok ts) := by
  refine ⟨rfl, rfl, ?_, ?_, ?_⟩
  · intro binPath world lockfile pin vp log receipt
    simp [MCPTrust.lock, MCPTrust._parse_server_command, truthyOptStr, truthyOptList]
  · intro binPath world lockfile preset log receipt rof
    simp [MCPTrust.check, MCPTrust._parse_server_command, truthyOptStr, truthyOptList]
  · intro ts hts
    simp [MCPTrust._parse_server_command, truthyOptStr, truthyOptList, hts]

/-- Witness for C10 at concrete inputs. -/
theorem parse_truthiness_empty_forms_witness :
    MCPTrust.lock "/mock/mcptrust" (fun _ => ⟨0, "", ""⟩) none (some [])
        "mcp-lock.json" true false none none
      = ([], .error (.valueError "Must specify server_command or server_argv")) ∧
    MCPTrust._parse_server_command (some "") (some ["npx", "-y", "server"])
      = .ok ["npx", "-y", "server"] :=
  ⟨parse_truthiness_empty_forms.2.2.1 "/mock/mcptrust" (fun _ => ⟨0, "", ""⟩)
      "mcp-lock.json" true false none none,
   parse_truthiness_empty_forms.2.2.2.2 ["npx", "-y", "server"] (by decide)⟩

/-- C3: for any valid server-command input, lock spawns exactly the
one invocation whose argument vector is lock, the common flags, the
output flag with the lockfile, the pin flag when pin, the provenance
flag when requested, the separator and the server tokens, in that
order; any non-zero child exit raises the command error regardless of
every flag, and exit 0 returns a LockResult carrying the
caller-supplied lockfile path. -/
theorem lock_argv_and_always_raises
    (binPath : String) (world : List String → ProcResult)
    (sc : Option String) (sa : Option (List String))
    (lockfile : String) (pin vp : Bool)
    (log : Option LogConfig) (receipt : Option ReceiptConfig)
    (cmd_tokens : List String)
    (hparse : MCPTrust._parse_server_command sc sa = .ok cmd_tokens) :
    (MCPTrust.lock binPath world sc sa lockfile pin vp log receipt).1
      = [lockInvocation binPath lockfile pin vp log receipt cmd_tokens] ∧
    ((world (lockInvocation binPath lockfile pin vp log receipt cmd_tokens)).returncode ≠ 0 →
       (MCPTrust.lock binPath world sc sa lockfile pin vp log receipt).2
         = .error (.commandError (mkCommandError
             (lockInvocation binPath lockfile pin vp log receipt cmd_tokens)
             (world (lockInvocation binPath lockfile pin vp log receipt cmd_tokens))))) ∧
    ((world (lockInvocation binPath lockfile pin vp log receipt cmd_tokens)).returncode = 0 →
       (MCPTrust.lock binPath world sc sa lockfile pin vp log receipt).2
         = .ok { lockfile_path := lockfile
               , stdout := (world (lockInvocation binPath lockfile pin vp log receipt cmd_tokens)).stdout
               , stderr := (world (lockInvocation binPath lockfile pin vp log receipt cmd_tokens)).stderr }) := by
  refine ⟨?_, fun h => ?_, fun h => ?_⟩
  · simp only [MCPTrust.lock, hparse, MCPTrust._run, lockInvocation]
    split <;> rfl
  · simp only [lockInvocation] at h
    simp only [MCPTrust.lock, hparse, MCPTrust._run, lockInvocation, if_pos h]
  · simp only [lockInvocation] at h
    simp only [MCPTrust.lock, hparse, MCPTrust._run, lockInvocation,
      if_neg (not_not_intro h)]

/-- Witness for C3: a concrete lock invocation with a failing child
raises, one with a succeeding child returns the caller's lockfile
path. -/
theorem lock_argv_and_always_raises_witness :
    (MCPTrust.lock "/mock/mcptrust" (fun _ => ⟨1, "", "boom"⟩)
       (some "npx -y server") none "mcp-lock.json" true false none none).2
      = .error (.commandError (mkCommandError
          (lockInvocation "/mock/mcptrust" "mcp-lock.json" true false none none
            ["npx", "-y", "server"])
          ⟨1, "", "boom"⟩)) ∧
    (MCPTrust.lock "/mock/mcptrust" (fun _ => ⟨0, "locked", ""⟩)
       (some "npx -y server") none "mcp-lock.json" true false none none).2
      = .ok { lockfile_path := "mcp-lock.json", stdout := "locked", stderr := "" } :=
  ⟨(lock_argv_and_always_raises "/mock/mcptrust" (fun _ => ⟨1, "", "boom"⟩)
      (some "npx -y server") none "mcp-lock.json" true false none none
      ["npx", "-y", "server"] rfl).2.1 (by decide),
   (lock_argv_and_always_raises "/mock/mcptrust" (fun _ => ⟨0, "locked", ""⟩)
      (some "npx -y server") none "mcp-lock.json" true false none none
      ["npx", "-y", "server"] rfl).2.2 (by decide)⟩

/-- C4: run with raise_on_fail true (its default) raises the command
error on any non-zero child exit; with raise_on_fail false it instead
returns a RunResult carrying the real non-zero exit code and the
captured streams; on child exit 0 the returned exit code is always
0. -/
theorem run_outcome_spec :
    (∀ (binPath : String) (world : List String → ProcResult)
       (lockfile : String) (rp dr : Bool) (bn : Option String)
       (log : Option LogConfig) (receipt : Option ReceiptConfig),
       (world (runInvocation binPath lockfile rp dr bn log receipt)).returncode ≠ 0 →
       (MCPTrust.run binPath world lockfile rp dr bn log receipt true).2
         = .error (.commandError (mkCommandError
             (runInvocation binPath lockfile rp dr bn log receipt)
             (world (runInvocation binPath lockfile rp dr bn log receipt))))) ∧
    (∀ (binPath : String) (world : List String → ProcResult)
       (lockfile : String) (rp dr : Bool) (bn : Option String)
       (log : Option LogConfig) (receipt : Option ReceiptConfig),
       (world (runInvocation binPath lockfile rp dr bn log receipt)).returncode ≠ 0 →
       (MCPTrust.run binPath world lockfile rp dr bn log receipt false).2
         = .ok { exit_code := (world (runInvocation binPath lockfile rp dr bn log receipt)).returncode
               , stdout := (world (runInvocation binPath lockfile rp dr bn log receipt)).stdout
               , stderr := (world (runInvocation binPath lockfile rp dr bn log receipt)).stderr }) ∧
    (∀ (binPath : String) (world : List String → ProcResult)
       (lockfile : String) (rp dr : Bool) (bn : Option String)
       (log : Option LogConfig) (receipt : Option ReceiptConfig) (rof : Bool),
       (world (runInvocation binPath lockfile rp dr bn log receipt)).returncode = 0 →
       (MCPTrust.run binPath world lockfile rp dr bn log receipt rof).2
         = .ok { exit_code := 0
               , stdout := (world (runInvocation binPath lockfile rp dr bn log receipt)).stdout
               , stderr := (world (runInvocation binPath lockfile rp dr bn log receipt)).stderr }) := by
  refine ⟨?_, ?_, ?_⟩
  · intro binPath world lockfile rp dr bn log receipt h
    simp only [runInvocation] at h
    simp only [MCPTrust.run, MCPTrust._run, runInvocation, mkCommandError, if_pos h, if_true]
  · intro binPath world lockfile rp dr bn log receipt h
    simp only [runInvocation] at h
    simp only [MCPTrust.run, MCPTrust._run, runInvocation, mkCommandError, if_pos h,
      Bool.false_eq_true, if_false]
  · intro binPath world lockfile rp dr bn log receipt rof h
    simp only [runInvocation] at h
    simp only [MCPTrust.run, MCPTrust._run, runInvocation, if_neg (not_not_intro h)]

/-- Witness for C4: a concrete failing run raises by default, returns
the real exit code when raising is opted out, and a succeeding run
returns exit code 0. -/
theorem run_outcome_spec_witness :
    (MCPTrust.run "/mock/mcptrust" (fun _ => ⟨3, "out", "err"⟩)
       "mcp-lock.json" false false none none none true).2
      = .error (.commandError (mkCommandError
          (runInvocation "/mock/mcptrust" "mcp-lock.json" false false none none none)
          ⟨3, "out", "err"⟩)) ∧
    (MCPTrust.run "/mock/mcptrust" (fun _ => ⟨3, "out", "err"⟩)
       "mcp-lock.json" false false none none none false).2
      = .ok { exit_code := 3, stdout := "out", stderr := "err" } ∧
    (MCPTrust.run "/mock/mcptrust" (fun _ => ⟨0, "ok", ""⟩)
       "mcp-lock.json" false false none none none true).2
      = .ok { exit_code := 0, stdout := "ok", stderr := "" } :=
  ⟨run_outcome_spec.1 "/mock/mcptrust" (fun _ => ⟨3, "out", "err"⟩)
      "mcp-lock.json" false false none none none (by decide),
   run_outcome_spec.2.1 "/mock/mcptrust" (fun _ => ⟨3, "out", "err"⟩)
      "mcp-lock.json" false false none none none (by decide),
   run_outcome_spec.2.2 "/mock/mcptrust" (fun _ => ⟨0, "ok", ""⟩)
      "mcp-lock.json" false false none none none true (by decide)⟩

/-- The body of MCPTrust.check after server-command parsing, phrased
over the named diff and policy invocations; definitionally equal to
the check body, as the lemma below records. -/
def checkModel (binPath : String) (world : List String → ProcResult)
    (lockfile : String) (preset : String)
    (log : Option LogConfig) (receipt : Option ReceiptConfig)
    (raise_on_fail : Bool) (cmd_tokens : List String) :
    List (List String) × Except MCPError CheckResult :=
  let D := diffInvocation binPath lockfile log receipt cmd_tokens
  let P := policyInvocation binPath lockfile preset log receipt cmd_tokens
  let diffRes : Except CommandError ProcResult :=
    if (world D).returncode ≠ 0 then .error (mkCommandError D (world D)) else .ok (world D)
  let diff_passed := match diffRes with | .ok _ => true | .error _ => false
  let diff_stdout := match diffRes with | .ok r => r.stdout | .error e => e.stdout
  let diff_stderr := match diffRes with | .ok r => r.stderr | .error e => e.stderr
  let diff_error : Option CommandError :=
    match diffRes with | .ok _ => none | .error e => some e
  let policyRes : Except CommandError ProcResult :=
    if (world P).returncode ≠ 0 then .error (mkCommandError P (world P)) else .ok (world P)
  let policy_passed := match policyRes with | .ok _ => true | .error _ => false
  let policy_stdout := match policyRes with | .ok r => r.stdout | .error e => e.stdout
  let policy_stderr := match policyRes with | .ok r => r.stderr | .error e => e.stderr
  let policy_error : Option CommandError :=
    match policyRes with | .ok _ => none | .error e => some e
  let passed := diff_passed && policy_passed
  let trace := [D, P]
  let result : CheckResult :=
    { passed := passed
    , diff_stdout := diff_stdout, diff_stderr := diff_stderr
    , policy_stdout := policy_stdout, policy_stderr := policy_stderr }
  if raise_on_fail && !passed then
    match diff_error with
    | some e => (trace, .error (.commandError e))
    | none =>
      match policy_error with
      | some e => (trace, .error (.commandError e))
      | none => (trace, .ok result)
  else
    (trace, .ok result)

/-- After a successful server-command parse, MCPTrust.check computes
exactly checkModel on the parsed tokens. -/
theorem check_eq_checkModel (binPath : String) (world : List String → ProcResult)
    (sc : Option String) (sa : Option (List String))
    (lockfile preset : String) (log : Option LogConfig) (receipt : Option ReceiptConfig)
    (raise_on_fail : Bool) (cmd_tokens : List String)
    (hparse : MCPTrust._parse_server_command sc sa = .ok cmd_tokens) :
    MCPTrust.check binPath world sc sa lockfile preset log receipt raise_on_fail
      = checkModel binPath world lockfile preset log receipt raise_on_fail cmd_tokens := by
  simp only [MCPTrust.check, hparse]
  rfl

/-- C1: for any valid server-command input and any outcomes of the two
children, check spawns exactly the diff invocation followed by the
policy invocation — the policy step runs even when the diff step exits
non-zero — and (with the default raise_on_fail false) returns a
CheckResult whose passed is true exactly when both steps exited 0 and
whose four stream fields carry the two steps' stdout and stderr
independently. -/
theorem check_runs_both_steps_and_aggregates
    (binPath : String) (world : List String → ProcResult)
    (sc : Option String) (sa : Option (List String))
    (lockfile preset : String) (log : Option LogConfig) (receipt : Option ReceiptConfig)
    (cmd_tokens : List String)
    (hparse : MCPTrust._parse_server_command sc sa = .ok cmd_tokens) :
    (MCPTrust.check binPath world sc sa lockfile preset log receipt false).1
      = [diffInvocation binPath lockfile log receipt cmd_tokens,
         policyInvocation binPath lockfile preset log receipt cmd_tokens] ∧
    ∃ r : CheckResult,
      (MCPTrust.check binPath world sc sa lockfile preset log receipt false).2 = .ok r ∧
      (r.passed = true ↔
        ((world (diffInvocation binPath lockfile log receipt cmd_tokens)).returncode = 0 ∧
         (world (policyInvocation binPath lockfile preset log receipt cmd_tokens)).returncode = 0)) ∧
      r.diff_stdout = (world (diffInvocation binPath lockfile log receipt cmd_tokens)).stdout ∧
      r.diff_stderr = (world (diffInvocation binPath lockfile log receipt cmd_tokens)).stderr ∧
      r.policy_stdout = (world (policyInvocation binPath lockfile preset log receipt cmd_tokens)).stdout ∧
      r.policy_stderr = (world (policyInvocation binPath lockfile preset log receipt cmd_tokens)).stderr := by
  rw [check_eq_checkModel binPath world sc sa lockfile preset log receipt false cmd_tokens hparse]
  by_cases h1 : (world (diffInvocation binPath lockfile log receipt cmd_tokens)).returncode = 0 <;>
    by_cases h2 : (world (policyInvocation binPath lockfile preset log receipt cmd_tokens)).returncode = 0 <;>
    simp [checkModel, mkCommandError, h1, h2]

/-- A concrete world for the C1 witness: the diff step exits 1 with
stdout drift, the policy step exits 0. -/
def worldDiffDrift : List String → ProcResult
  | _ :: "diff" :: _ => ⟨1, "drift", ""⟩
  | _ => ⟨0, "", ""⟩

/-- Witness for C1, the spec scenario: the mocked diff step exits 1
with stdout drift and the policy step exits 0, so check returns
passed false with diff_stdout drift and clean policy streams. -/
theorem check_runs_both_steps_witness :
    ∃ r : CheckResult,
      (MCPTrust.check "/mock/mcptrust" worldDiffDrift (some "cmd") none
         "mcp-lock.json" "strict" none none false).2 = .ok r ∧
      r.passed = false ∧ r.diff_stdout = "drift" ∧
      r.policy_stdout = "" ∧ r.policy_stderr = "" := by
  obtain ⟨htrace, r, hok, hiff, hds, hde, hps, hpe⟩ :=
    check_runs_both_steps_and_aggregates "/mock/mcptrust" worldDiffDrift (some "cmd") none
      "mcp-lock.json" "strict" none none ["cmd"] rfl
  refine ⟨r, hok, ?_, ?_, ?_, ?_⟩
  · have : ¬ (r.passed = true) := by
      rw [hiff]
      intro hcontra
      exact absurd hcontra.1 (by decide)
    simp only [Bool.not_eq_true] at this
    exact this
  · rw [hds]; rfl
  · rw [hps]; rfl
  · rw [hpe]; rfl

/-- C2: with raise_on_fail at its default false, check never raises,
whatever the two children do; with raise_on_fail true and a failed
diff step, the raised failure is the diff step's captured error (its
exit code, stdout and stderr), whatever the policy step did; with a
passing diff step and a failing policy step, the policy step's error
is raised. -/
theorem check_raise_on_fail_spec :
    (∀ (binPath : String) (world : List String → ProcResult)
       (sc : Option String) (sa : Option (List String))
       (lockfile preset : String) (log : Option LogConfig) (receipt : Option ReceiptConfig)
       (cmd_tokens : List String),
       MCPTrust._parse_server_command sc sa = .ok cmd_tokens →
       ∃ r : CheckResult,
         (MCPTrust.check binPath world sc sa lockfile preset log receipt false).2 = .ok r) ∧
    (∀ (binPath : String) (world : List String → ProcResult)
       (sc : Option String) (sa : Option (List String))
       (lockfile preset : String) (log : Option LogConfig) (receipt : Option ReceiptConfig)
       (cmd_tokens : List String),
       MCPTrust._parse_server_command sc sa = .ok cmd_tokens →
       (world (diffInvocation binPath lockfile log receipt cmd_tokens)).returncode ≠ 0 →
       (MCPTrust.check binPath world sc sa lockfile preset log receipt true).2
         = .error (.commandError (mkCommandError
             (diffInvocation binPath lockfile log receipt cmd_tokens)
             (world (diffInvocation binPath lockfile log receipt cmd_tokens))))) ∧
    (∀ (binPath : String) (world : List String → ProcResult)
       (sc : Option String) (sa : Option (List String))
       (lockfile preset : String) (log : Option LogConfig) (receipt : Option ReceiptConfig)
       (cmd_tokens : List String),
       MCPTrust._parse_server_command sc sa = .ok cmd_tokens →
       (world (diffInvocation binPath lockfile log receipt cmd_tokens)).returncode = 0 →
       (world (policyInvocation binPath lockfile preset log receipt cmd_tokens)).returncode ≠ 0 →
       (MCPTrust.check binPath world sc sa lockfile preset log receipt true).2
         = .error (.commandError (mkCommandError
             (policyInvocation binPath lockfile preset log receipt cmd_tokens)
             (world (policyInvocation binPath lockfile preset log receipt cmd_tokens))))) := by
  refine ⟨?_, ?_, ?_⟩
  · intro binPath world sc sa lockfile preset log receipt cmd_tokens hparse
    rw [check_eq_checkModel binPath world sc sa lockfile preset log receipt false cmd_tokens hparse]
    by_cases h1 : (world (diffInvocation binPath lockfile log receipt cmd_tokens)).returncode = 0 <;>
      by_cases h2 : (world (policyInvocation binPath lockfile preset log receipt cmd_tokens)).returncode = 0 <;>
      simp [checkModel, h1, h2]
  · intro binPath world sc sa lockfile preset log receipt cmd_tokens hparse h1
    rw [check_eq_checkModel binPath world sc sa lockfile preset log receipt true cmd_tokens hparse]
    by_cases h2 : (world (policyInvocation binPath lockfile preset log receipt cmd_tokens)).returncode = 0 <;>
      simp [checkModel, h1, h2]
  · intro binPath world sc sa lockfile preset log receipt cmd_tokens hparse h1 h2
    rw [check_eq_checkModel binPath world sc sa lockfile preset log receipt true cmd_tokens hparse]
    simp [checkModel, h1, h2]

/-- A concrete world for the C2 witness: both the diff step and the
policy step fail, with distinct exit codes and streams. -/
def worldBothFail : List String → ProcResult
  | _ :: "diff" :: _ => ⟨1, "dout", "derr"⟩
  | _ :: "policy" :: _ => ⟨2, "pout", "perr"⟩
  | _ => ⟨0, "", ""⟩

/-- Witness for C2: with both steps failing, the default never raises,
and raise_on_fail true raises the diff step's error — exit code 1 and
stderr derr, not the policy step's exit code 2. -/
theorem check_raise_on_fail_spec_witness :
    (∃ r : CheckResult,
       (MCPTrust.check "/mock/mcptrust" worldBothFail (some "cmd") none
          "mcp-lock.json" "baseline" none none false).2 = .ok r) ∧
    (MCPTrust.check "/mock/mcptrust" worldBothFail (some "cmd") none
       "mcp-lock.json" "baseline" none none true).2
      = .error (.commandError
          { message := "mcptrust exited with code 1", exit_code := 1
          , argv := ["/mock/mcptrust", "diff", "--lockfile", "mcp-lock.json", "--", "cmd"]
          , stdout := "dout", stderr := "derr" }) := by
  constructor
  · exact check_raise_on_fail_spec.1 "/mock/mcptrust" worldBothFail (some "cmd") none
      "mcp-lock.json" "baseline" none none ["cmd"] rfl
  · have h := check_raise_on_fail_spec.2.1 "/mock/mcptrust" worldBothFail (some "cmd") none
      "mcp-lock.json" "baseline" none none ["cmd"] rfl (by decide)
    rw [h]
    rfl

/-- C9: the string form of a command error always carries the exit
code; when stderr is longer than 200 characters the stderr part shows
exactly the first 200 characters followed by an ellipsis, so the
message depends only on that prefix and the full stderr never appears;
shorter non-empty stderr is shown whole, and empty stderr contributes
no stderr part. -/
theorem command_error_str_spec :
    (∀ e : CommandError, 200 < e.stderr.length →
       MCPTrustCommandError.str e
         = String.intercalate " | "
             [e.message, "exit_code=" ++ toString e.exit_code,
              "stderr=" ++ pyRepr (e.stderr.take 200 ++ "...")]) ∧
    (∀ e1 e2 : CommandError,
       200 < e1.stderr.length → 200 < e2.stderr.length →
       e1.message = e2.message → e1.exit_code = e2.exit_code →
       e1.stderr.take 200 = e2.stderr.take 200 →
       MCPTrustCommandError.str e1 = MCPTrustCommandError.str e2) ∧
    (∀ e : CommandError, e.stderr ≠ "" → e.stderr.length ≤ 200 →
       MCPTrustCommandError.str e
         = String.intercalate " | "
             [e.message, "exit_code=" ++ toString e.exit_code,
              "stderr=" ++ pyRepr e.stderr]) ∧
    (∀ e : CommandError, e.stderr = "" →
       MCPTrustCommandError.str e
         = String.intercalate " | "
             [e.message, "exit_code=" ++ toString e.exit_code]) := by
  have hlong : ∀ e : CommandError, 200 < e.stderr.length →
      MCPTrustCommandError.str e
        = String.intercalate " | "
            [e.message, "exit_code=" ++ toString e.exit_code,
             "stderr=" ++ pyRepr (e.stderr.take 200 ++ "...")] := by
    intro e h
    have hne : e.stderr ≠ "" := by
      intro hc
      rw [hc] at h
      simp at h
    simp [MCPTrustCommandError.str, hne, h]
  refine ⟨hlong, ?_, ?_, ?_⟩
  · intro e1 e2 h1 h2 hm hc hp
    rw [hlong e1 h1, hlong e2 h2, hm, hc, hp]
  · intro e hne h
    have hnotlong : ¬ (200 < e.stderr.length) := by omega
    simp [MCPTrustCommandError.str, hne, hnotlong]
  · intro e h
    simp [MCPTrustCommandError.str, h]

set_option maxRecDepth 100000 in
/-- Witness for C9 at concrete errors: a 201-character stderr is
truncated to its 200-character prefix plus an ellipsis, and two errors
agreeing on that prefix render identically. -/
theorem command_error_str_spec_witness :
    MCPTrustCommandError.str
        { message := "mcptrust exited with code 1", exit_code := 1, argv := []
        , stdout := "", stderr := String.mk (List.replicate 201 'x') }
      = String.intercalate " | "
          ["mcptrust exited with code 1", "exit_code=" ++ toString (1 : Int),
           "stderr=" ++ pyRepr ((String.mk (List.replicate 201 'x')).take 200 ++ "...")] ∧
    MCPTrustCommandError.str
        { message := "m", exit_code := 7, argv := []
        , stdout := "", stderr := String.mk (List.replicate 200 'x' ++ ['a']) }
      = MCPTrustCommandError.str
        { message := "m", exit_code := 7, argv := []
        , stdout := "", stderr := String.mk (List.replicate 200 'x' ++ ['b', 'c']) } :=
  ⟨command_error_str_spec.1
      { message := "mcptrust exited with code 1", exit_code := 1, argv := []
      , stdout := "", stderr := String.mk (List.replicate 201 'x') } (by decide),
   command_error_str_spec.2.1
      { message := "m", exit_code := 7, argv := []
      , stdout := "", stderr := String.mk (List.replicate 200 'x' ++ ['a']) }
      { message := "m", exit_code := 7, argv := []
      , stdout := "", stderr := String.mk (List.replicate 200 'x' ++ ['b', 'c']) }
      (by decide) (by decide) rfl rfl (by decide)⟩

/-- C8 counterexample: the langchain adapter constructor given both a
server-command string and a non-empty token sequence does not let the
token sequence win — the stored pair reaches the parser, every
subsequent check raises the not-both usage error, and no subprocess is
spawned. -/
theorem adapter_both_forms_counterexample :
    TrustedMCPServer.check
        (TrustedMCPServer.init (some "npx -y original") (some ["npx", "-y", "preferred"])
          "mcp-lock.json" "baseline")
        "/mock/mcptrust" (fun _ => ⟨0, "", ""⟩) none none false
      = ([], .error (.valueError "Specify server_command OR server_argv, not both")) := by
  rfl

/-- C8 amended: the autogen guard constructor prefers the token
sequence when both forms are supplied — it stores the tokens, drops
the string, and every subsequent lock or check it makes uses the token
sequence with no usage error — while the langchain adapter stores both
forms unchanged, so its every subsequent check raises the not-both
usage error. -/
theorem adapter_both_forms_amended :
    (∀ (sc : Option String) (a : List String) (lockfile preset : String)
       (log : Option LogConfig) (receipt : Option ReceiptConfig),
       truthyOptStr sc = true → a ≠ [] →
       ∃ g : GuardConfig,
         MCPTrustGuard.init sc (some a) lockfile preset log receipt = .ok g ∧
         g.server_command = none ∧ g.server_argv = some a ∧
         (∀ (binPath : String) (world : List String → ProcResult) (rof : Bool),
            MCPTrustGuard.check g binPath world rof
              = MCPTrust.check binPath world none (some a) lockfile preset log receipt rof) ∧
         (∀ (binPath : String) (world : List String → ProcResult) (pin vp : Bool),
            MCPTrustGuard.lock g binPath world pin vp
              = MCPTrust.lock binPath world none (some a) lockfile pin vp log receipt) ∧
         MCPTrust._parse_server_command none (some a) = .ok a) ∧
    (∀ (sc : Option String) (a : List String) (lockfile preset binPath : String)
       (world : List String → ProcResult)
       (log : Option LogConfig) (receipt : Option ReceiptConfig) (rof : Bool) (pin vp : Bool),
       truthyOptStr sc = true → a ≠ [] →
       TrustedMCPServer.check (TrustedMCPServer.init sc (some a) lockfile preset)
           binPath world log receipt rof
         = ([], .error (.valueError "Specify server_command OR server_argv, not both")) ∧
       TrustedMCPServer.lock (TrustedMCPServer.init sc (some a) lockfile preset)
           binPath world pin vp log receipt
         = ([], .error (.valueError "Specify server_command OR server_argv, not both"))) := by
  constructor
  · intro sc a lockfile preset log receipt hsc ha
    have hta : truthyOptList (some a) = true := by
      simp [truthyOptList, ha]
    refine ⟨{ server_command := none, server_argv := some a
            , lockfile := lockfile, preset := preset, log := log, receipt := receipt },
            ?_, rfl, rfl, fun binPath world rof => rfl, fun binPath world pin vp => rfl, ?_⟩
    · simp [MCPTrustGuard.init, hsc, hta]
    · simp [MCPTrust._parse_server_command, truthyOptList, truthyOptStr, ha]
  · intro sc a lockfile preset binPath world log receipt rof pin vp hsc ha
    have hta : truthyOptList (some a) = true := by
      simp [truthyOptList, ha]
    constructor
    · simp [TrustedMCPServer.check, TrustedMCPServer.init, MCPTrust.check,
        MCPTrust._parse_server_command, hsc, hta]
    · simp [TrustedMCPServer.lock, TrustedMCPServer.init, MCPTrust.lock,
        MCPTrust._parse_server_command, hsc, hta]

/-- Witness for the amended C8 at concrete adapter configurations. -/
theorem adapter_both_forms_amended_witness :
    (∃ g : GuardConfig,
       MCPTrustGuard.init (some "npx -y original") (some ["npx", "-y", "preferred"])
           "mcp-lock.json" "baseline" none none = .ok g ∧
       g.server_command = none ∧ g.server_argv = some ["npx", "-y", "preferred"]) ∧
    TrustedMCPServer.check
        (TrustedMCPServer.init (some "npx -y original") (some ["npx", "-y", "preferred"])
          "custom.json" "strict")
        "/mock/mcptrust" (fun _ => ⟨0, "", ""⟩) none none true
      = ([], .error (.valueError "Specify server_command OR server_argv, not both")) ∧
    TrustedMCPServer.lock
        (TrustedMCPServer.init (some "npx -y original") (some ["npx", "-y", "preferred"])
          "custom.json" "strict")
        "/mock/mcptrust" (fun _ => ⟨0, "", ""⟩) true false none none
      = ([], .error (.valueError "Specify server_command OR server_argv, not both")) := by
  refine ⟨?_, ?_, ?_⟩
  · obtain ⟨g, hinit, hcmd, hargv, -, -, -⟩ :=
      adapter_both_forms_amended.1 (some "npx -y original") ["npx", "-y", "preferred"]
        "mcp-lock.json" "baseline" none none (by decide) (by decide)
    exact ⟨g, hinit, hcmd, hargv⟩
  · exact (adapter_both_forms_amended.2 (some "npx -y original") ["npx", "-y", "preferred"]
      "custom.json" "strict" "/mock/mcptrust" (fun _ => ⟨0, "", ""⟩) none none true
      true false (by decide) (by decide)).1
  · exact (adapter_both_forms_amended.2 (some "npx -y original") ["npx", "-y", "preferred"]
      "custom.json" "strict" "/mock/mcptrust" (fun _ => ⟨0, "", ""⟩) none none true
      true false (by decide) (by decide)).2
